/-
Verification of the DataBug scan-pipeline against its specification.

This file shallowly embeds the finding-intelligence pipeline of the
repository (backend/src/services/scanner/) in Lean 4:

  * finding_aggregator.py  — FindingAggregator.calculate_priority / process
  * correlation.py         — correlate_findings / _find_match
  * ai_triage.py           — AITriageEngine.triage_finding and helpers
  * dependency_health_scanner.py — _base_severity, _is_yanked_release,
                                   _parse_semver, _compare_semver,
                                   _compare_prerelease
  * repo_fetcher.py        — RepoFetcher.clone (over an abstract remote)
  * dast_runner.py         — DASTRunner.scan (over an abstract subprocess
                             outcome)
  * scan_pipeline.py       — the per-finding persistence step

Python floats are modelled as exact rationals (ℚ); Python `round` is
modelled as round-half-to-even on ℚ.  Python strings are Lean `String`s,
`in` is contiguous-substring search, and str.lower/upper/strip are the
ASCII transformations actually exercised by the code.  JSON payloads are
modelled to the scalar-and-flat-list depth that the program's payloads
use.  Every definition follows the corresponding Python source; the few
`SpecRef` definitions instead follow the specification's words and are
used only to compare the two.
-/
import Mathlib

/-! ## Python primitive helpers -/

/-- Rational addition through `mkRat` (cross multiplication).  Equal to
`a + b` (see `qadd_eq`); used instead of `Rat.add`, which is
`@[irreducible]` and therefore opaque to kernel evaluation. -/
def qadd (a b : ℚ) : ℚ := mkRat (a.num * b.den + b.num * a.den) (a.den * b.den)

/-- Rational subtraction through `mkRat`; equal to `a - b` (`qsub_eq`). -/
def qsub (a b : ℚ) : ℚ := mkRat (a.num * b.den - b.num * a.den) (a.den * b.den)

/-- Rational multiplication through `mkRat`; equal to `a * b` (`qmul_eq`). -/
def qmul (a b : ℚ) : ℚ := mkRat (a.num * b.num) (a.den * b.den)

theorem qadd_eq (a b : ℚ) : qadd a b = a + b := by
  have ha : (a.den : ℚ) ≠ 0 := Nat.cast_ne_zero.mpr a.den_nz
  have hb : (b.den : ℚ) ≠ 0 := Nat.cast_ne_zero.mpr b.den_nz
  rw [qadd, Rat.mkRat_eq_div]
  conv_rhs => rw [← Rat.num_div_den a, ← Rat.num_div_den b]
  push_cast
  field_simp

theorem qsub_eq (a b : ℚ) : qsub a b = a - b := by
  have ha : (a.den : ℚ) ≠ 0 := Nat.cast_ne_zero.mpr a.den_nz
  have hb : (b.den : ℚ) ≠ 0 := Nat.cast_ne_zero.mpr b.den_nz
  rw [qsub, Rat.mkRat_eq_div]
  conv_rhs => rw [← Rat.num_div_den a, ← Rat.num_div_den b]
  push_cast
  field_simp
  ring

theorem qmul_eq (a b : ℚ) : qmul a b = a * b := by
  have ha : (a.den : ℚ) ≠ 0 := Nat.cast_ne_zero.mpr a.den_nz
  have hb : (b.den : ℚ) ≠ 0 := Nat.cast_ne_zero.mpr b.den_nz
  rw [qmul, Rat.mkRat_eq_div]
  conv_rhs => rw [← Rat.num_div_den a, ← Rat.num_div_den b]
  push_cast
  field_simp

/-- Python `min` on two rationals (kernel-reducible). -/
def qmin (a b : ℚ) : ℚ := if a ≤ b then a else b

/-- Python `max` on two rationals (kernel-reducible). -/
def qmax (a b : ℚ) : ℚ := if b ≤ a then a else b

/-- Python `min` on two integers (kernel-reducible). -/
def imin (a b : ℤ) : ℤ := if a ≤ b then a else b

/-- Python `max` on two integers (kernel-reducible). -/
def imax (a b : ℤ) : ℤ := if b ≤ a then a else b

/-- Python `round` on a rational: round half to even. -/
def pyRound (q : ℚ) : ℤ :=
  let fl : ℤ := q.floor
  let frac : ℚ := qsub q (mkRat fl 1)
  if frac < mkRat 1 2 then fl
  else if mkRat 1 2 < frac then fl + 1
  else if fl % 2 = 0 then fl else fl + 1

/-- Auxiliary contiguous-substring search on character lists. -/
def pyInAux (needle : List Char) : List Char → Bool
  | [] => needle.isEmpty
  | c :: rest => needle.isPrefixOf (c :: rest) || pyInAux needle rest

/-- Python `needle in haystack` on strings (contiguous substring). -/
def pyIn (needle haystack : String) : Bool :=
  pyInAux needle.data haystack.data

/-- Python `str.lower()` (ASCII case folding, as exercised here). -/
def pyLower (s : String) : String := ⟨s.data.map Char.toLower⟩

/-- Python `str.upper()` (ASCII case folding, as exercised here). -/
def pyUpper (s : String) : String := ⟨s.data.map Char.toUpper⟩

/-- Python `str.strip()` with no argument: trim whitespace on both ends. -/
def pyStrip (s : String) : String :=
  ⟨((s.data.dropWhile Char.isWhitespace).reverse.dropWhile
      Char.isWhitespace).reverse⟩

/-! ## Data model (types.py) -/

/-- types.py `TriagedFinding` (dataclass field for field). -/
structure TriagedFinding where
  rule_id : String
  rule_message : String
  semgrep_severity : String
  file_path : String
  line_start : ℤ
  line_end : ℤ
  code_snippet : String
  context_snippet : String
  function_name : Option String
  class_name : Option String
  is_test_file : Bool
  is_generated : Bool
  imports : List String
  is_false_positive : Bool
  ai_severity : String
  ai_confidence : ℚ
  ai_reasoning : String
  exploitability : String
  priority_score : Option ℤ := none
  confirmed_exploitable : Bool := false
  is_reachable : Bool := true
  reachability_score : ℚ := 1
  reachability_reason : String := ""
  entry_points : Option (List String) := none
  call_path : Option (List String) := none
  dast_matched_at : Option String := none
  dast_endpoint : Option String := none
  dast_curl_command : Option String := none
  dast_evidence : Option (List String) := none
  dast_cve_ids : Option (List String) := none
  dast_cwe_ids : Option (List String) := none
  deriving Repr, DecidableEq

/-- types.py `DynamicFinding`. -/
structure DynamicFinding where
  template_id : String
  template_name : String
  severity : String
  matched_at : String
  endpoint : String
  curl_command : String
  evidence : List String
  description : String
  remediation : String
  cve_ids : List String
  cwe_ids : List String
  deriving Repr, DecidableEq

/-- types.py `RawFinding`. -/
structure RawFinding where
  rule_id : String
  rule_message : String
  severity : String
  file_path : String
  line_start : ℤ
  line_end : ℤ
  code_snippet : String
  deriving Repr, DecidableEq

/-- types.py `CodeContext`. -/
structure CodeContext where
  snippet : String
  function_name : Option String
  class_name : Option String
  is_test_file : Bool
  is_generated : Bool
  imports : List String
  is_reachable : Bool := true
  reachability_score : ℚ := 1
  reachability_reason : String := ""
  entry_points : Option (List String) := none
  call_path : Option (List String) := none
  deriving Repr, DecidableEq

/-! ## FindingAggregator.calculate_priority (finding_aggregator.py 80-118) -/

namespace FindingAggregator

/-- finding_aggregator.py 81-88: `severity_weights.get(ai_severity, 30)`. -/
def severity_weight (sev : String) : ℤ :=
  if sev == "critical" then 90
  else if sev == "high" then 75
  else if sev == "medium" then 55
  else if sev == "low" then 35
  else if sev == "info" then 10
  else 30

/-- finding_aggregator.py 93: the −15 exploitability phrase list. -/
def downgrade_terms : List String := ["not exploitable", "unlikely", "false positive"]

/-- finding_aggregator.py 95: the +10 exploitability phrase list. -/
def upgrade_terms : List String := ["remote", "arbitrary", "unauthenticated"]

/-- finding_aggregator.py 99-105: the −10 exploitability phrase list. -/
def auth_terms : List String :=
  ["requires authentication", "authenticated", "admin only", "local only",
   "user interaction"]

/-- finding_aggregator.py 80-118 `calculate_priority`, line for line,
as a function of the six fields the method reads.
`confidence = finding.ai_confidence or 0.5` makes a zero confidence read
as 0.5; the scaling clamps the confidence into [0,1] while the `< 0.35`
test uses the unclamped value. -/
def priority_core (sev : String) (conf0 : ℚ) (expl0 : String)
    (test gen confirmed : Bool) : ℤ :=
  let base : ℚ := mkRat (severity_weight sev) 1
  let confidence : ℚ := if conf0 = 0 then mkRat 1 2 else conf0
  let score : ℚ :=
    qmul base (qadd (mkRat 1 2) (qmul (mkRat 1 2) (qmax 0 (qmin confidence 1))))
  let expl := pyLower expl0
  let score := if downgrade_terms.any (fun t => pyIn t expl) then qsub score 15 else score
  let score := if upgrade_terms.any (fun t => pyIn t expl) then qadd score 10 else score
  let score := if auth_terms.any (fun t => pyIn t expl) then qsub score 10 else score
  let score := if confidence < mkRat 35 100 then qsub score 10 else score
  let score := if test || gen then qsub score 25 else score
  let score := if confirmed then qadd score 15 else score
  imax 0 (imin 100 (pyRound score))

/-- finding_aggregator.py 80-118 `calculate_priority(finding)`. -/
def calculate_priority (f : TriagedFinding) : ℤ :=
  priority_core f.ai_severity f.ai_confidence f.exploitability
    f.is_test_file f.is_generated f.confirmed_exploitable

/-- SpecRef: the priority formula exactly as the specification words it —
severity base weight scaled by `0.5 + 0.5·confidence`, −15 / +10 for the
listed phrasings, −10 only for "requires authentication" / "local only" /
"user interaction", −10 when confidence < 0.35, −25 for test or generated
files, +15 when confirmed exploitable, clamped to [0,100]. -/
def calculate_priority_spec_ref (f : TriagedFinding) : ℤ :=
  let base : ℚ := mkRat (severity_weight f.ai_severity) 1
  let expl := pyLower f.exploitability
  let adjustments : ℤ :=
    (if downgrade_terms.any (fun t => pyIn t expl) then -15 else 0)
    + (if upgrade_terms.any (fun t => pyIn t expl) then 10 else 0)
    + (if ["requires authentication", "local only", "user interaction"].any
          (fun t => pyIn t expl) then -10 else 0)
    + (if f.ai_confidence < mkRat 35 100 then -10 else 0)
    + (if f.is_test_file || f.is_generated then -25 else 0)
    + (if f.confirmed_exploitable then 15 else 0)
  let score : ℚ :=
    qadd (qmul base (qadd (mkRat 1 2) (qmul (mkRat 1 2) f.ai_confidence)))
      (mkRat adjustments 1)
  imax 0 (imin 100 (pyRound score))

/-- SpecRef (amended): the same formula amended so that the −10
adjustment fires on any of "requires authentication", "authenticated",
"admin only", "local only", "user interaction"; a zero confidence is
read as 0.5 (before both the scaling and the `< 0.35` test); the scaling
clamps the confidence into [0,1] while the `< 0.35` test does not. -/
def amended_ref_core (sev : String) (conf0 : ℚ) (expl0 : String)
    (test gen confirmed : Bool) : ℤ :=
  let base : ℚ := mkRat (severity_weight sev) 1
  let conf : ℚ := if conf0 = 0 then mkRat 1 2 else conf0
  let expl := pyLower expl0
  let adjustments : ℤ :=
    (if downgrade_terms.any (fun t => pyIn t expl) then -15 else 0)
    + (if upgrade_terms.any (fun t => pyIn t expl) then 10 else 0)
    + (if auth_terms.any (fun t => pyIn t expl) then -10 else 0)
    + (if conf < mkRat 35 100 then -10 else 0)
    + (if test || gen then -25 else 0)
    + (if confirmed then 15 else 0)
  let score : ℚ :=
    qadd (qmul base (qadd (mkRat 1 2) (qmul (mkRat 1 2) (qmax 0 (qmin conf 1)))))
      (mkRat adjustments 1)
  imax 0 (imin 100 (pyRound score))

/-- SpecRef (amended): the amended formula applied to a finding. -/
def calculate_priority_amended_ref (f : TriagedFinding) : ℤ :=
  amended_ref_core f.ai_severity f.ai_confidence f.exploitability
    f.is_test_file f.is_generated f.confirmed_exploitable

end FindingAggregator

/-- Concrete finding whose exploitability text is exactly the
spec-listed "+10" phrase "unauthenticated". -/
def c1Finding : TriagedFinding :=
  { rule_id := "python.lang.security.audit.sqli"
    rule_message := "User input reaches a raw query"
    semgrep_severity := "ERROR"
    file_path := "app/db.py"
    line_start := 10
    line_end := 12
    code_snippet := "query = build(user_id)"
    context_snippet := "query = build(user_id)"
    function_name := some "get_user"
    class_name := none
    is_test_file := false
    is_generated := false
    imports := []
    is_false_positive := false
    ai_severity := "high"
    ai_confidence := 1
    ai_reasoning := "tainted flow"
    exploitability := "unauthenticated" }

/-- Same finding as `c1Finding` with the score-irrelevant fields changed. -/
def c1FindingVariant : TriagedFinding :=
  { c1Finding with
    rule_id := "python.lang.other-rule"
    rule_message := "different message"
    file_path := "lib/other.py"
    line_start := 1
    line_end := 2 }

theorem imax0_nonneg (v : ℤ) : 0 ≤ imax 0 v := by
  unfold imax; split_ifs <;> omega

theorem imax0_imin100_le (v : ℤ) : imax 0 (imin 100 v) ≤ 100 := by
  unfold imax imin; split_ifs <;> omega

theorem ite_sub_shift (c : Prop) [Decidable c] (s k : ℚ) :
    (if c then s - k else s) = s + (if c then -k else 0) := by
  split_ifs <;> ring

theorem ite_add_shift (c : Prop) [Decidable c] (s k : ℚ) :
    (if c then s + k else s) = s + (if c then k else 0) := by
  split_ifs <;> ring

theorem priority_core_eq_amended (sev : String) (conf0 : ℚ) (expl0 : String)
    (test gen confirmed : Bool) :
    FindingAggregator.priority_core sev conf0 expl0 test gen confirmed =
      FindingAggregator.amended_ref_core sev conf0 expl0 test gen confirmed := by
  unfold FindingAggregator.priority_core FindingAggregator.amended_ref_core
  simp only [qadd_eq, qsub_eq, qmul_eq, Rat.mkRat_one]
  refine congrArg (fun v : ℚ => imax 0 (imin 100 (pyRound v))) ?_
  simp only [ite_sub_shift, ite_add_shift]
  push_cast [apply_ite (fun z : ℤ => (z : ℚ))]
  ring

/-- C1 (counterexample): on a finding whose exploitability text is exactly
the spec-listed phrase "unauthenticated" (severity "high", confidence 1.0,
no flags), the code returns 75 while the claim's reference formula returns
85: the code's −10 phrase list also contains "authenticated", which is a
substring of "unauthenticated", so the +10 and −10 adjustments both fire. -/
theorem calculate_priority_spec_ref_counterexample :
    FindingAggregator.calculate_priority c1Finding = 75 ∧
    FindingAggregator.calculate_priority_spec_ref c1Finding = 85 ∧
    FindingAggregator.calculate_priority c1Finding ≠
      FindingAggregator.calculate_priority_spec_ref c1Finding := by
  refine ⟨by decide, by decide, by decide⟩

/-- C1 (amended): `calculate_priority` returns an integer in [0,100]
equal to the reference formula amended so that the −10 exploitability
adjustment fires on any of "requires authentication", "authenticated",
"admin only", "local only", "user interaction"; a zero confidence is read
as 0.5 (before both the scaling and the `< 0.35` test); the scaling clamps
the confidence into [0,1] while the `< 0.35` test uses the unclamped
value; an unrecognized severity string has base weight 30.  It is a pure
function of (severity, confidence, exploitability text, test/generated
flags, confirmed-exploitable flag): two calls on inputs equal in those
fields give equal results. -/
theorem calculate_priority_amended_correct (f : TriagedFinding) :
    FindingAggregator.calculate_priority f =
      FindingAggregator.calculate_priority_amended_ref f ∧
    0 ≤ FindingAggregator.calculate_priority f ∧
    FindingAggregator.calculate_priority f ≤ 100 ∧
    ∀ g : TriagedFinding,
      g.ai_severity = f.ai_severity → g.ai_confidence = f.ai_confidence →
      g.exploitability = f.exploitability → g.is_test_file = f.is_test_file →
      g.is_generated = f.is_generated →
      g.confirmed_exploitable = f.confirmed_exploitable →
      FindingAggregator.calculate_priority g = FindingAggregator.calculate_priority f := by
  refine ⟨priority_core_eq_amended _ _ _ _ _ _, ?_, ?_, ?_⟩
  · show 0 ≤ imax 0 _
    exact imax0_nonneg _
  · show imax 0 (imin 100 _) ≤ 100
    exact imax0_imin100_le _
  · intro g h1 h2 h3 h4 h5 h6
    unfold FindingAggregator.calculate_priority
    rw [h1, h2, h3, h4, h5, h6]

/-- C1 (witness): the amended theorem applied at `c1Finding`, with the
purity component discharged at a field-variant of the same finding. -/
theorem calculate_priority_amended_witness :
    FindingAggregator.calculate_priority c1FindingVariant =
      FindingAggregator.calculate_priority c1Finding ∧
    0 ≤ FindingAggregator.calculate_priority c1Finding :=
  ⟨(calculate_priority_amended_correct c1Finding).2.2.2 c1FindingVariant
      rfl rfl rfl rfl rfl rfl,
   (calculate_priority_amended_correct c1Finding).2.1⟩

/-! ## Correlation engine (correlation.py) -/

namespace Correlation

/-- correlation.py 58-64 `_extract_cwe` regex step: try to match
`cwe[-_]?(\d+)` (case-insensitively) at the head of the character list,
returning the maximal digit run of the capture group. -/
def match_cwe_at : List Char → Option (List Char)
  | c :: w :: e :: rest =>
    if c.toLower == 'c' && w.toLower == 'w' && e.toLower == 'e' then
      match rest with
      | x :: xs =>
        if x == '-' || x == '_' then
          let ds := xs.takeWhile Char.isDigit
          if ds.isEmpty then none else some ds
        else
          let ds := rest.takeWhile Char.isDigit
          if ds.isEmpty then none else some ds
      | [] => none
    else none
  | _ => none

/-- correlation.py 61 `re.search`: leftmost occurrence of the pattern. -/
def search_cwe : List Char → Option (List Char)
  | [] => none
  | c :: cs =>
    match match_cwe_at (c :: cs) with
    | some ds => some ds
    | none => search_cwe cs

/-- correlation.py 58-64 `_extract_cwe`. -/
def extract_cwe (value : String) : Option String :=
  if value == "" then none
  else (search_cwe value.data).map (fun ds => "cwe-" ++ String.mk ds)

/-- correlation.py 68-88: the vulnerability-class keyword synonym groups. -/
def keyword_groups : List (List String) :=
  [["sql", "sqli", "injection"],
   ["xss", "cross-site", "cross site", "scripting"],
   ["rce", "command", "exec", "eval", "code execution", "command injection"],
   ["ssrf", "server-side request", "server side request", "request forgery"],
   ["path traversal", "directory traversal", "zip slip"],
   ["lfi", "rfi", "file inclusion", "local file inclusion"],
   ["xxe", "xml external entity"],
   ["csrf", "cross-site request forgery", "cross site request forgery"],
   ["ssti", "template injection", "server-side template"],
   ["deserialization", "deserialize", "unserialize", "pickle", "yaml load"],
   ["open redirect", "open-redirect", "unvalidated redirect"],
   ["auth bypass", "authentication bypass", "authorization bypass",
    "privilege escalation", "broken access control"],
   ["idor", "insecure direct object reference"]]

/-- correlation.py 67-92 `_keyword_match`. -/
def keyword_match (sast_text dast_text : String) : Bool :=
  keyword_groups.any (fun ks =>
    ks.any (fun k => pyIn k sast_text) && ks.any (fun k => pyIn k dast_text))

/-- correlation.py 36-55 `_find_match`: per dynamic finding, first the
exact CWE-id comparison and then the keyword-group comparison; the first
dynamic finding satisfying either wins. -/
def find_match (sast : TriagedFinding) (dast_findings : List DynamicFinding) :
    Option DynamicFinding :=
  let sast_cwe :=
    match extract_cwe sast.rule_id with
    | some c => some c
    | none => extract_cwe sast.rule_message
  let sast_text := pyLower (sast.rule_id ++ " " ++ sast.rule_message)
  dast_findings.find? (fun dast =>
    let dast_text :=
      pyLower (dast.template_id ++ " " ++ dast.template_name ++ " " ++ dast.description)
    (match sast_cwe with
     | some c => dast.cwe_ids.any (fun cwe => c == pyLower cwe)
     | none => false)
    || keyword_match sast_text dast_text)

/-- correlation.py 19-28: the in-place mutation applied to a static
finding when a dynamic finding matches it. -/
def apply_match (s : TriagedFinding) (d : DynamicFinding) : TriagedFinding :=
  { s with
    confirmed_exploitable := true
    is_false_positive := false
    ai_confidence := qmin 1 (qadd s.ai_confidence (mkRat 1 5))
    dast_matched_at := some d.matched_at
    dast_endpoint := some d.endpoint
    dast_curl_command := some d.curl_command
    dast_evidence := some d.evidence
    dast_cve_ids := some d.cve_ids
    dast_cwe_ids := some d.cwe_ids }

/-- correlation.py 9-33 `correlate_findings`.  The Python loop mutates
each static finding in place; since `_find_match` reads only the static
finding's `rule_id` and `rule_message`, which the mutation never touches,
the loop is a `map`.  `matched_templates` is the set of template ids of
matched dynamic findings, and the unmatched list excludes by template id. -/
def correlate_findings (sast : List TriagedFinding) (dast : List DynamicFinding) :
    List TriagedFinding × List DynamicFinding :=
  let updated := sast.map (fun s =>
    match find_match s dast with
    | some d => apply_match s d
    | none => s)
  let matched_templates :=
    sast.filterMap (fun s => (find_match s dast).map (fun d => d.template_id))
  let unmatched := dast.filter (fun d => !(matched_templates.contains d.template_id))
  (updated, unmatched)

end Correlation

/-- Helper: a dynamic finding matched by some static finding never
appears in the unmatched list (its template id is recorded). -/
theorem matched_not_in_unmatched
    (sast : List TriagedFinding) (dast : List DynamicFinding)
    (s : TriagedFinding) (d : DynamicFinding)
    (hs : s ∈ sast) (hm : Correlation.find_match s dast = some d) :
    d ∉ (Correlation.correlate_findings sast dast).2 := by
  intro hd
  unfold Correlation.correlate_findings at hd
  simp only [List.mem_filter, Bool.not_eq_eq_eq_not, Bool.not_true] at hd
  obtain ⟨-, hpred⟩ := hd
  have hmem : d.template_id ∈
      sast.filterMap (fun s => (Correlation.find_match s dast).map
        (fun d => d.template_id)) :=
    List.mem_filterMap.mpr ⟨s, hs, by rw [hm]; rfl⟩
  rw [← List.elem_iff] at hmem
  simp only [List.contains] at hpred
  rw [hmem] at hpred
  cases hpred

/-- Concrete static SQL-injection finding (first). -/
def sqlSast1 : TriagedFinding :=
  { rule_id := "python.django.sql-injection"
    rule_message := "Possible SQL injection"
    semgrep_severity := "ERROR"
    file_path := "app/db.py"
    line_start := 10
    line_end := 12
    code_snippet := "cursor.execute(q)"
    context_snippet := "cursor.execute(q)"
    function_name := some "get_user"
    class_name := none
    is_test_file := false
    is_generated := false
    imports := []
    is_false_positive := false
    ai_severity := "high"
    ai_confidence := mkRat 3 5
    ai_reasoning := "tainted flow"
    exploitability := "remote" }

/-- Concrete static SQL-injection finding (second, distinct rule/file). -/
def sqlSast2 : TriagedFinding :=
  { sqlSast1 with
    rule_id := "js.node.sqli-concat"
    rule_message := "String concatenation in SQL query"
    file_path := "srv/api.js"
    ai_confidence := mkRat 9 10
    is_false_positive := true }

/-- Concrete dynamic SQL-injection finding. -/
def sqlDast : DynamicFinding :=
  { template_id := "sqli-error-based"
    template_name := "SQL Injection (Error Based)"
    severity := "high"
    matched_at := "https://x.example/item?id=1"
    endpoint := "https://x.example"
    curl_command := "curl https://x.example/item?id=1"
    evidence := ["syntax error in response"]
    description := "SQL injection detected"
    remediation := "Use parameterized queries."
    cve_ids := []
    cwe_ids := ["CWE-89"] }

/-- Concrete dynamic open-redirect finding that matches neither static
finding above (different vulnerability class, no shared CWE). -/
def redirectDast : DynamicFinding :=
  { template_id := "open-redirect-basic"
    template_name := "Open Redirect"
    severity := "medium"
    matched_at := "https://x.example/go?url=evil"
    endpoint := "https://x.example"
    curl_command := "curl https://x.example/go?url=evil"
    evidence := []
    description := "redirect to untrusted site"
    remediation := "Validate redirect targets."
    cve_ids := []
    cwe_ids := ["CWE-601"] }

/-- C2 (counterexample): correlation is not injective from the dynamic
side.  With two static SQL-injection findings and a single dynamic
SQL-injection finding, `_find_match` matches the same dynamic finding to
both static findings — `correlate_findings` never removes a matched
dynamic finding from the candidate list — so its evidence (curl command,
endpoint) is copied onto two static findings in one run. -/
theorem correlation_injective_counterexample :
    Correlation.find_match sqlSast1 [sqlDast] = some sqlDast ∧
    Correlation.find_match sqlSast2 [sqlDast] = some sqlDast ∧
    ((Correlation.correlate_findings [sqlSast1, sqlSast2] [sqlDast]).1.map
        (fun t => t.dast_curl_command)) =
      [some sqlDast.curl_command, some sqlDast.curl_command] ∧
    ((Correlation.correlate_findings [sqlSast1, sqlSast2] [sqlDast]).1.map
        (fun t => t.confirmed_exploitable)) = [true, true] := by
  refine ⟨by decide, by decide, by decide, by decide⟩

/-- C2 (amended): a dynamic finding returned in the unmatched list was
matched by no static finding of the run (matched dynamic findings are
always excluded from the unmatched list, by template id); however a
single dynamic finding may be matched by — and have its evidence copied
onto — more than one static finding, so injectivity from the dynamic
side does not hold. -/
theorem correlation_unmatched_sound
    (sast : List TriagedFinding) (dast : List DynamicFinding)
    (d : DynamicFinding) (hd : d ∈ (Correlation.correlate_findings sast dast).2) :
    ∀ s ∈ sast, Correlation.find_match s dast ≠ some d := by
  intro s hs hm
  exact matched_not_in_unmatched sast dast s d hs hm hd

/-- C2 (witness): the amended theorem applied to a concrete run in which
the open-redirect dynamic finding goes unmatched. -/
theorem correlation_unmatched_sound_witness :
    Correlation.find_match sqlSast1 [sqlDast, redirectDast] ≠ some redirectDast :=
  correlation_unmatched_sound [sqlSast1] [sqlDast, redirectDast] redirectDast
    (by decide) sqlSast1 (by decide)

/-- C4: when `correlate_findings` matches static finding `s` (at index
`i`) to dynamic finding `d`, the returned static finding at `i` is `s`
with `confirmed_exploitable := true`, the false-positive flag cleared,
confidence increased by exactly 0.2 capped at 1.0, and the dynamic
finding's matched URL, endpoint, curl command, evidence list and CVE/CWE
ids copied on; and `d` is not in the returned unmatched list. -/
theorem correlation_match_effects
    (sast : List TriagedFinding) (dast : List DynamicFinding)
    (i : ℕ) (s : TriagedFinding) (d : DynamicFinding)
    (hs : sast[i]? = some s) (hm : Correlation.find_match s dast = some d) :
    (Correlation.correlate_findings sast dast).1[i]? =
      some (Correlation.apply_match s d) ∧
    (Correlation.apply_match s d).confirmed_exploitable = true ∧
    (Correlation.apply_match s d).is_false_positive = false ∧
    (Correlation.apply_match s d).ai_confidence =
      qmin 1 (qadd s.ai_confidence (mkRat 1 5)) ∧
    (Correlation.apply_match s d).dast_matched_at = some d.matched_at ∧
    (Correlation.apply_match s d).dast_endpoint = some d.endpoint ∧
    (Correlation.apply_match s d).dast_curl_command = some d.curl_command ∧
    (Correlation.apply_match s d).dast_evidence = some d.evidence ∧
    (Correlation.apply_match s d).dast_cve_ids = some d.cve_ids ∧
    (Correlation.apply_match s d).dast_cwe_ids = some d.cwe_ids ∧
    d ∉ (Correlation.correlate_findings sast dast).2 := by
  refine ⟨?_, rfl, rfl, rfl, rfl, rfl, rfl, rfl, rfl, rfl, ?_⟩
  · unfold Correlation.correlate_findings
    simp only [List.getElem?_map, hs, Option.map]
    rw [hm]
  · have hmem : s ∈ sast := by
      rw [List.getElem?_eq_some] at hs
      obtain ⟨h, rfl⟩ := hs
      exact List.getElem_mem h
    exact matched_not_in_unmatched sast dast s d hmem hm

/-- C4 (witness): the theorem applied to the concrete single-finding run. -/
theorem correlation_match_effects_witness :
    (Correlation.correlate_findings [sqlSast1] [sqlDast]).1[0]? =
      some (Correlation.apply_match sqlSast1 sqlDast) ∧
    sqlDast ∉ (Correlation.correlate_findings [sqlSast1] [sqlDast]).2 := by
  have h := correlation_match_effects [sqlSast1] [sqlDast] 0 sqlSast1 sqlDast
    rfl (by decide)
  exact ⟨h.1, h.2.2.2.2.2.2.2.2.2.2⟩

/-! ## AI triage engine (ai_triage.py) -/

namespace AITriageEngine

/-- Scalar JSON value as Python sees it after `json.loads`. -/
inductive PyScalar where
  | s (v : String)
  | b (v : Bool)
  | n (v : ℚ)
  deriving Repr, DecidableEq

/-- JSON value to the scalar-and-flat-list depth used by the program's
payloads (LLM triage fields and nuclei record fields). -/
inductive PyVal where
  | scalar (v : PyScalar)
  | list (vs : List PyScalar)
  deriving Repr, DecidableEq

/-- Python truthiness of a scalar. -/
def scalar_truthy : PyScalar → Bool
  | .s v => v != ""
  | .b v => v
  | .n v => v != 0

/-- Python truthiness of a value. -/
def py_truthy : PyVal → Bool
  | .scalar v => scalar_truthy v
  | .list vs => !vs.isEmpty

/-- Rendering of a rational for `str()`.  (Python renders floats
differently, but no code path compares such a rendering against the
severity vocabulary, which is all-alphabetic.) -/
def rat_repr (q : ℚ) : String :=
  if q.den == 1 then toString q.num
  else toString q.num ++ "/" ++ toString q.den

/-- Python `str()` of a scalar. -/
def scalar_str : PyScalar → String
  | .s v => v
  | .b v => if v then "True" else "False"
  | .n v => rat_repr v

/-- Python `str()` of a value (list rendering simplified; see
`rat_repr`). -/
def py_str : PyVal → String
  | .scalar v => scalar_str v
  | .list vs => "[" ++ String.intercalate ", " (vs.map scalar_str) ++ "]"

/-- Python `str(a or b or ... or "")`: the first truthy value rendered
with `str`, else `""`.  Absent dict keys and JSON nulls are `none`
(both give `None`, which is falsy, in Python). -/
def py_or_str : List (Option PyVal) → String
  | [] => ""
  | v :: rest =>
    match v with
    | some pv => if py_truthy pv then py_str pv else py_or_str rest
    | none => py_or_str rest

/-- ai_triage.py 193-200 `_parse_bool`. -/
def parse_bool : PyVal → Bool
  | .scalar (.b v) => v
  | .scalar (.s v) =>
    let t := pyLower (pyStrip v)
    t == "true" || t == "yes" || t == "1"
  | .scalar (.n v) => v != 0
  | .list _ => false

/-- Digit run to a natural number (decimal). -/
def digits_to_nat (ds : List Char) : ℕ :=
  ds.foldl (fun a c => a * 10 + (c.toNat - 48)) 0

/-- Python `float(string)` on the decimal forms the code can meet:
optional sign, digits, optional fractional part.  (Exponent and
inf/nan forms are not modelled; no claim depends on them.) -/
def parse_float_str (s : String) : Option ℚ :=
  let t := pyStrip s
  let signAndRest : ℤ × List Char :=
    match t.data with
    | '+' :: cs => (1, cs)
    | '-' :: cs => (-1, cs)
    | cs => (1, cs)
  let sign := signAndRest.1
  let rest := signAndRest.2
  let intPart := rest.takeWhile Char.isDigit
  let rest2 := rest.drop intPart.length
  match rest2 with
  | [] =>
    if intPart.isEmpty then none
    else some (mkRat (sign * (digits_to_nat intPart : ℤ)) 1)
  | '.' :: frac =>
    if frac.all Char.isDigit && !(intPart.isEmpty && frac.isEmpty) then
      some (mkRat
        (sign * ((digits_to_nat intPart : ℤ) * (10 : ℤ) ^ frac.length
          + (digits_to_nat frac : ℤ)))
        ((10 : ℕ) ^ frac.length))
    else none
  | _ => none

/-- Python `float(value)` for the modelled value shapes; `none` is the
`TypeError`/`ValueError` outcome. -/
def py_float : PyVal → Option ℚ
  | .scalar (.n v) => some v
  | .scalar (.b v) => some (if v then 1 else 0)
  | .scalar (.s v) => parse_float_str v
  | .list _ => none

/-- ai_triage.py 186-191 `_parse_confidence`: 0.5 on failure, else the
value clamped into [0,1]. -/
def parse_confidence (v : Option PyVal) : ℚ :=
  match v with
  | none => mkRat 1 2
  | some pv =>
    match py_float pv with
    | none => mkRat 1 2
    | some c => qmax 0 (qmin c 1)

/-- The JSON object `_parse_response` extracts: each requested key is
present (`some`) or absent/null (`none`). -/
structure TriageResponse where
  is_false_positive : Option PyVal := none
  adjusted_severity : Option PyVal := none
  ai_severity : Option PyVal := none
  confidence : Option PyVal := none
  reasoning : Option PyVal := none
  exploitability : Option PyVal := none
  deriving Repr, DecidableEq

/-- ai_triage.py 175: the allowed severity vocabulary. -/
def allowed_severities : List String := ["critical", "high", "medium", "low", "info"]

/-- ai_triage.py 173-184 `_normalize_severity`. -/
def normalize_severity (ai_severity semgrep_severity : String) : String :=
  let a := pyLower (pyStrip ai_severity)
  if allowed_severities.contains a then a
  else
    let s := pyUpper semgrep_severity
    if s == "ERROR" then "high"
    else if s == "WARNING" then "medium"
    else "low"

/-- ai_triage.py 202-212 `_apply_context_adjustments`. -/
def apply_context_adjustments (severity : String) (context : CodeContext)
    (is_fp : Bool) : String :=
  if is_fp then "info"
  else if context.is_test_file || context.is_generated then
    if severity == "critical" || severity == "high" then "low"
    else if severity == "medium" then "low"
    else severity
  else severity

/-- ai_triage.py 51-53: the fixed fallback reasoning string. -/
def fallback_reasoning : String :=
  "LLM response was unavailable or invalid; fallback to Semgrep severity."

/-- ai_triage.py 55: the fixed fallback exploitability string. -/
def fallback_exploitability : String :=
  "Not enough context to determine exploitability."

/-- ai_triage.py 25-76 `triage_finding`, as a function of the parse
outcome `(data, parsed)` of the LLM response.  `_call_llm` returns `""`
on any failure or timeout, and `_parse_response` returns `({}, False)`
for an empty, brace-less, or undecodable response, so every failure mode
reaches this function as `(empty_response, false)`; the function itself
is total (it never raises). -/
def triage_finding (finding : RawFinding) (context : CodeContext)
    (data : TriageResponse) (parsed : Bool) : TriagedFinding :=
  let is_fp :=
    if parsed then parse_bool (data.is_false_positive.getD (PyVal.scalar (PyScalar.b false)))
    else false
  let sev0 := normalize_severity
    (py_or_str [data.adjusted_severity, data.ai_severity]) finding.severity
  let conf := if parsed then parse_confidence data.confidence else mkRat 1 5
  let reasoning0 := pyStrip (py_or_str [data.reasoning])
  let expl0 := pyStrip (py_or_str [data.exploitability])
  let sev := apply_context_adjustments sev0 context is_fp
  let reasoning := if reasoning0 == "" then fallback_reasoning else reasoning0
  let expl := if expl0 == "" then fallback_exploitability else expl0
  { rule_id := finding.rule_id
    rule_message := finding.rule_message
    semgrep_severity := finding.severity
    file_path := finding.file_path
    line_start := finding.line_start
    line_end := finding.line_end
    code_snippet := finding.code_snippet
    context_snippet := if context.snippet == "" then finding.code_snippet else context.snippet
    function_name := context.function_name
    class_name := context.class_name
    is_test_file := context.is_test_file
    is_generated := context.is_generated
    imports := context.imports
    is_false_positive := is_fp
    ai_severity := sev
    ai_confidence := conf
    ai_reasoning := reasoning
    exploitability := expl }

/-- ai_triage.py 146-158: every unparsable response yields `({}, False)`. -/
def empty_response : TriageResponse := {}

end AITriageEngine

/-- Helper: `_normalize_severity` always returns one of the five allowed
severity strings. -/
theorem normalize_severity_mem (a sem : String) :
    AITriageEngine.normalize_severity a sem ∈ AITriageEngine.allowed_severities := by
  unfold AITriageEngine.normalize_severity
  dsimp only
  split_ifs with h1 h2 h3
  · simpa [List.contains, List.elem_iff] using h1
  · decide
  · decide
  · decide

/-- Helper: with a test-file or generated context, the context
adjustment maps every allowed severity to "low" (or "info" for a
false positive). -/
theorem apply_ctx_result (s0 : String) (context : CodeContext) (fp : Bool)
    (htg : context.is_test_file = true ∨ context.is_generated = true)
    (hmem : s0 ∈ AITriageEngine.allowed_severities) :
    AITriageEngine.apply_context_adjustments s0 context fp = "info" ∨
    AITriageEngine.apply_context_adjustments s0 context fp = "low" := by
  have hc : (context.is_test_file || context.is_generated) = true := by
    rcases htg with h | h <;> simp [h]
  unfold AITriageEngine.apply_context_adjustments
  rw [hc]
  fin_cases hmem <;> by_cases hfp : fp <;> simp [hfp]

/-- C3: whenever the context marks the file as a test file or generated,
the triaged finding's severity is never "critical", "high" or "medium",
whatever the parsed LLM response contains (demotion to "low", or "info"
for a false-positive-flagged finding). -/
theorem triage_context_demotion
    (finding : RawFinding) (context : CodeContext)
    (data : AITriageEngine.TriageResponse) (parsed : Bool)
    (h : context.is_test_file = true ∨ context.is_generated = true) :
    (AITriageEngine.triage_finding finding context data parsed).ai_severity ≠ "critical" ∧
    (AITriageEngine.triage_finding finding context data parsed).ai_severity ≠ "high" ∧
    (AITriageEngine.triage_finding finding context data parsed).ai_severity ≠ "medium" := by
  have hsev : (AITriageEngine.triage_finding finding context data parsed).ai_severity =
      AITriageEngine.apply_context_adjustments
        (AITriageEngine.normalize_severity
          (AITriageEngine.py_or_str [data.adjusted_severity, data.ai_severity])
          finding.severity)
        context
        (if parsed then
          AITriageEngine.parse_bool
            (data.is_false_positive.getD
              (AITriageEngine.PyVal.scalar (AITriageEngine.PyScalar.b false)))
        else false) := rfl
  rcases apply_ctx_result _ context _ h (normalize_severity_mem _ _) with h2 | h2 <;>
    rw [hsev, h2] <;> exact ⟨by decide, by decide, by decide⟩

/-- Concrete raw finding for the triage witnesses. -/
def c3Raw : RawFinding :=
  { rule_id := "python.flask.debug-enabled"
    rule_message := "Flask app run with debug=True"
    severity := "WARNING"
    file_path := "tests/test_app.py"
    line_start := 5
    line_end := 5
    code_snippet := "app.run(debug=True)" }

/-- Concrete test-file context. -/
def c3Context : CodeContext :=
  { snippet := "def test_run():"
    function_name := some "test_run"
    class_name := none
    is_test_file := true
    is_generated := false
    imports := ["flask"] }

/-- Concrete parsed LLM response insisting on "critical". -/
def c3Data : AITriageEngine.TriageResponse :=
  { adjusted_severity := some (AITriageEngine.PyVal.scalar (AITriageEngine.PyScalar.s "critical"))
    confidence := some (AITriageEngine.PyVal.scalar (AITriageEngine.PyScalar.n (mkRat 9 10)))
    reasoning := some (AITriageEngine.PyVal.scalar (AITriageEngine.PyScalar.s "looks bad"))
    exploitability := some (AITriageEngine.PyVal.scalar (AITriageEngine.PyScalar.s "remote")) }

/-- C3 (witness): the theorem applied to a test-file context whose LLM
response says "critical". -/
theorem triage_context_demotion_witness :
    (AITriageEngine.triage_finding c3Raw c3Context c3Data true).ai_severity ≠ "critical" :=
  (triage_context_demotion c3Raw c3Context c3Data true (Or.inl rfl)).1

/-- C6: for every raw finding and context, the failure outcome — LLM
call failed, timed out, or returned no parsable JSON object, all of
which reach `triage_finding` as `(empty_response, parsed := false)` —
yields `is_false_positive = false`, confidence 0.2, the fixed fallback
reasoning string, and a severity derived from the tool-native severity
(ERROR→high, WARNING→medium, otherwise low) before the context
adjustment.  The embedded `triage_finding` is a total function, so the
failure path returns normally (the Python code never raises here: the
call is wrapped in `except Exception` and parsing in `try/except`). -/
theorem triage_fallback_default (finding : RawFinding) (context : CodeContext) :
    (AITriageEngine.triage_finding finding context AITriageEngine.empty_response false).is_false_positive = false ∧
    (AITriageEngine.triage_finding finding context AITriageEngine.empty_response false).ai_confidence = mkRat 1 5 ∧
    (AITriageEngine.triage_finding finding context AITriageEngine.empty_response false).ai_reasoning =
      AITriageEngine.fallback_reasoning ∧
    (AITriageEngine.triage_finding finding context AITriageEngine.empty_response false).ai_severity =
      AITriageEngine.apply_context_adjustments
        (if pyUpper finding.severity == "ERROR" then "high"
         else if pyUpper finding.severity == "WARNING" then "medium"
         else "low")
        context false :=
  ⟨rfl, rfl, rfl, rfl⟩

/-! ## Dependency health scanner (dependency_health_scanner.py) -/

namespace DependencyHealthScanner

/-- dependency_health_scanner.py 476-487: the high-severity keyword list. -/
def high_keywords : List String :=
  ["security", "vulnerab", "rce", "remote", "exploit", "critical", "eol",
   "end of life", "unsupported", "unmaintained"]

/-- dependency_health_scanner.py 488: does the lowered reason text
contain one of the high-severity keywords? -/
def has_high_keyword (reason : Option String) : Bool :=
  high_keywords.any (fun t => pyIn t (pyLower (reason.getD "")))

/-- dependency_health_scanner.py 470-490 `_base_severity`. -/
def base_severity (status : String) (reason : Option String)
    (is_yanked : Bool) : String :=
  if status == "outdated" then "low"
  else if is_yanked || has_high_keyword reason then "high"
  else "medium"

/-- SpecRef: the C5 claim's rule — for `deprecated`, "high" if and only
if the reason text contains a keyword, else "medium" (the yanked flag
plays no role beyond producing the status). -/
def base_severity_claim_ref (status : String) (reason : Option String) : String :=
  if status == "outdated" then "low"
  else if has_high_keyword reason then "high"
  else "medium"

/-- One entry of a PyPI `releases[version]` file list, reduced to the
two keys `_is_yanked_release` reads (`yanked` coerced with `bool`,
`yanked_reason` a string or null). -/
structure ReleaseFile where
  yanked : Bool
  yanked_reason : Option String
  deriving Repr, DecidableEq

/-- dependency_health_scanner.py 891-908 `_is_yanked_release`. -/
def is_yanked_release (files : List ReleaseFile) : Bool × Option String :=
  if files.isEmpty then (false, none)
  else
    let all_yanked := files.all (fun e => e.yanked)
    let reasons := files.filterMap (fun e =>
      match e.yanked_reason with
      | some r => if r != "" then some r else none
      | none => none)
    if !all_yanked then (false, none)
    else (true, some (reasons.headD "Release is yanked on PyPI."))

end DependencyHealthScanner

/-- C5 (counterexample): a fully-yanked release with no stated reason
gets the default reason "Release is yanked on PyPI.", which contains no
security/EOL/unmaintained keyword; `_base_severity` still returns
"high" (because `is_yanked` alone forces it), while the claim's
iff-rule would return "medium". -/
theorem base_severity_iff_counterexample :
    DependencyHealthScanner.is_yanked_release
        [({ yanked := true, yanked_reason := none } : DependencyHealthScanner.ReleaseFile)] =
      (true, some "Release is yanked on PyPI.") ∧
    DependencyHealthScanner.base_severity "deprecated"
        (some "Release is yanked on PyPI.") true = "high" ∧
    DependencyHealthScanner.base_severity_claim_ref "deprecated"
        (some "Release is yanked on PyPI.") = "medium" := by
  refine ⟨by decide, by decide, by decide⟩

/-- C5 (amended): `outdated` always yields "low"; `deprecated` yields
"high" if and only if the release is yanked **or** the deprecation
reason text contains a security/EOL/unmaintained keyword, and "medium"
otherwise. -/
theorem base_severity_amended (reason : Option String) (y : Bool) :
    DependencyHealthScanner.base_severity "outdated" reason y = "low" ∧
    (DependencyHealthScanner.base_severity "deprecated" reason y = "high" ↔
      (y = true ∨ DependencyHealthScanner.has_high_keyword reason = true)) ∧
    (DependencyHealthScanner.base_severity "deprecated" reason y = "medium" ↔
      ¬(y = true ∨ DependencyHealthScanner.has_high_keyword reason = true)) := by
  refine ⟨rfl, ?_, ?_⟩ <;>
    · unfold DependencyHealthScanner.base_severity
      cases y <;> cases hk : DependencyHealthScanner.has_high_keyword reason <;>
        (try simp only [hk]) <;> decide

/-- C5 (witness): the amended theorem applied to a deprecation reason
containing the "security" keyword. -/
theorem base_severity_amended_witness :
    DependencyHealthScanner.base_severity "deprecated"
      (some "no longer maintained; security issue") false = "high" :=
  (base_severity_amended (some "no longer maintained; security issue") false).2.1.mpr
    (Or.inr (by decide))

namespace DependencyHealthScanner

/-- dependency_health_scanner.py 647-650 `_parse_prerelease_part`
result: `(0, int(value))` for an all-digit part, `(1, value)` for an
alphanumeric part.  Python orders these tuples with the numeric tag
first, which the constructor order mirrors. -/
inductive PrePart where
  | num (n : ℕ)
  | alpha (cs : List Char)
  deriving Repr, DecidableEq

/-- dependency_health_scanner.py 647-650 `_parse_prerelease_part`. -/
def parse_prerelease_part (value : List Char) : PrePart :=
  if !value.isEmpty && value.all Char.isDigit then
    PrePart.num (AITriageEngine.digits_to_nat value)
  else PrePart.alpha value

/-- Python string comparison (lexicographic on code points) as the
`(s > t) - (s < t)` integer. -/
def chr_list_cmp : List Char → List Char → ℤ
  | [], [] => 0
  | [], _ :: _ => -1
  | _ :: _, [] => 1
  | a :: as, b :: bs =>
    if a == b then chr_list_cmp as bs
    else if a.toNat < b.toNat then -1 else 1

/-- Python tuple comparison of two prerelease parts as the
`(l > r) - (l < r)` integer: the numeric tag 0 sorts before the
alphanumeric tag 1. -/
def part_cmp : PrePart → PrePart → ℤ
  | .num n, .num m => if n < m then -1 else if m < n then 1 else 0
  | .num _, .alpha _ => -1
  | .alpha _, .num _ => 1
  | .alpha s, .alpha t => chr_list_cmp s t

/-- dependency_health_scanner.py 659-663: the `zip` loop returning the
sign of the first differing pair, then the length comparison. -/
def compare_prerelease_loop : List PrePart → List PrePart → ℤ
  | [], [] => 0
  | [], _ :: _ => -1
  | _ :: _, [] => 1
  | a :: as, b :: bs =>
    if a == b then compare_prerelease_loop as bs else part_cmp a b

/-- dependency_health_scanner.py 652-663 `_compare_prerelease`: an empty
prerelease tuple (a release version) sorts after any nonempty one. -/
def compare_prerelease (l r : List PrePart) : ℤ :=
  if l.isEmpty && r.isEmpty then 0
  else if l.isEmpty then 1
  else if r.isEmpty then -1
  else compare_prerelease_loop l r

/-- dependency_health_scanner.py 626-645 parse result. -/
structure SemVer where
  major : ℤ
  minor : ℤ
  patch : ℤ
  pre : List PrePart
  deriving Repr, DecidableEq

/-- Python `str.split(sep)` for a single-character separator. -/
def split_on_char (c : Char) : List Char → List (List Char)
  | [] => [[]]
  | x :: xs =>
    let rest := split_on_char c xs
    if x == c then [] :: rest
    else
      match rest with
      | r :: rs => (x :: r) :: rs
      | [] => [[x]]

/-- Python `int(string)`: optional surrounding whitespace, optional
sign, a nonempty digit run.  (Underscore digit separators are not
modelled; no version string uses them.) -/
def py_int_of_chars (cs : List Char) : Option ℤ :=
  let t := ((cs.dropWhile Char.isWhitespace).reverse.dropWhile
      Char.isWhitespace).reverse
  match t with
  | '+' :: ds =>
    if !ds.isEmpty && ds.all Char.isDigit then
      some ((AITriageEngine.digits_to_nat ds : ℕ) : ℤ)
    else none
  | '-' :: ds =>
    if !ds.isEmpty && ds.all Char.isDigit then
      some (-((AITriageEngine.digits_to_nat ds : ℕ) : ℤ))
    else none
  | ds =>
    if !ds.isEmpty && ds.all Char.isDigit then
      some ((AITriageEngine.digits_to_nat ds : ℕ) : ℤ)
    else none

/-- dependency_health_scanner.py 626-645 `_parse_semver`: strip, strip
leading `v`s, cut at the first `+`, split the part before the first `-`
on dots into major/minor/patch (missing parts default to 0; any
`int()` failure yields `None`), and parse the part after the first `-`
as dot-separated prerelease parts. -/
def parse_semver (value : String) : Option SemVer :=
  if value == "" then none
  else
    let cleaned := (pyStrip value).data.dropWhile (fun c => c == 'v')
    let beforePlus := cleaned.takeWhile (fun c => c != '+')
    let main := beforePlus.takeWhile (fun c => c != '-')
    let prerelease := (beforePlus.drop main.length).drop 1
    match split_on_char '.' main with
    | [] => none
    | p0 :: restParts =>
      match py_int_of_chars p0 with
      | none => none
      | some major =>
        let minorRes : Option ℤ :=
          match restParts with
          | [] => some 0
          | p1 :: _ => py_int_of_chars p1
        let patchRes : Option ℤ :=
          match restParts with
          | [] => some 0
          | [_] => some 0
          | _ :: p2 :: _ => py_int_of_chars p2
        match minorRes, patchRes with
        | some minor, some patch =>
          some { major := major, minor := minor, patch := patch,
                 pre := if prerelease.isEmpty then []
                   else (split_on_char '.' prerelease).map parse_prerelease_part }
        | _, _ => none

/-- Python tuple comparison of the (major, minor, patch) triples as the
`(l > r) - (l < r)` integer. -/
def tri_cmp (a b : ℤ × ℤ × ℤ) : ℤ :=
  if a = b then 0
  else if a.1 < b.1 ∨ (a.1 = b.1 ∧ (a.2.1 < b.2.1 ∨
      (a.2.1 = b.2.1 ∧ a.2.2 < b.2.2))) then -1
  else 1

/-- dependency_health_scanner.py 615-624 `_compare_semver`. -/
def compare_semver (left right : String) : ℤ :=
  match parse_semver left, parse_semver right with
  | some l, some r =>
    if (l.major, l.minor, l.patch) ≠ (r.major, r.minor, r.patch) then
      tri_cmp (l.major, l.minor, l.patch) (r.major, r.minor, r.patch)
    else compare_prerelease l.pre r.pre
  | _, _ => 0

end DependencyHealthScanner

/-- Helper: the comparison loop skips a shared prefix. -/
theorem compare_loop_append (pfx p q : List DependencyHealthScanner.PrePart) :
    DependencyHealthScanner.compare_prerelease_loop (pfx ++ p) (pfx ++ q) =
      DependencyHealthScanner.compare_prerelease_loop p q := by
  induction pfx with
  | nil => rfl
  | cons a pfx ih =>
    simp [DependencyHealthScanner.compare_prerelease_loop, ih]

/-- Helper: against a strict extension of itself, the loop reaches the
length comparison. -/
theorem compare_loop_self_append
    (pfx rest : List DependencyHealthScanner.PrePart) (h : rest ≠ []) :
    DependencyHealthScanner.compare_prerelease_loop pfx (pfx ++ rest) = -1 ∧
    DependencyHealthScanner.compare_prerelease_loop (pfx ++ rest) pfx = 1 := by
  induction pfx with
  | nil =>
    cases rest with
    | nil => exact absurd rfl h
    | cons b bs => exact ⟨rfl, rfl⟩
  | cons a pfx ih =>
    refine ⟨?_, ?_⟩ <;>
      simp [DependencyHealthScanner.compare_prerelease_loop, List.cons_append,
        (ih).1, (ih).2]

/-- C8: the npm semver comparator's prerelease ordering.  (i) For two
version strings that parse with equal major.minor.patch,
`_compare_semver` is decided by `_compare_prerelease` on the prerelease
tuples.  (ii) A numeric prerelease identifier compares before (less
than) any alphanumeric identifier in the same position, whatever
follows.  (iii) When all shared prerelease parts are equal, the version
with the shorter (nonempty) prerelease sequence compares before the
longer one.  (iv) A version with no prerelease compares after one that
has a prerelease. -/
theorem semver_prerelease_ordering :
    (∀ (s t : String) (l r : DependencyHealthScanner.SemVer),
      DependencyHealthScanner.parse_semver s = some l →
      DependencyHealthScanner.parse_semver t = some r →
      l.major = r.major → l.minor = r.minor → l.patch = r.patch →
      DependencyHealthScanner.compare_semver s t =
        DependencyHealthScanner.compare_prerelease l.pre r.pre) ∧
    (∀ (pfx p q : List DependencyHealthScanner.PrePart) (n : ℕ) (cs : List Char),
      DependencyHealthScanner.compare_prerelease
        (pfx ++ DependencyHealthScanner.PrePart.num n :: p)
        (pfx ++ DependencyHealthScanner.PrePart.alpha cs :: q) = -1) ∧
    (∀ (pfx rest : List DependencyHealthScanner.PrePart), pfx ≠ [] → rest ≠ [] →
      DependencyHealthScanner.compare_prerelease pfx (pfx ++ rest) = -1 ∧
      DependencyHealthScanner.compare_prerelease (pfx ++ rest) pfx = 1) ∧
    (∀ p : List DependencyHealthScanner.PrePart, p ≠ [] →
      DependencyHealthScanner.compare_prerelease [] p = 1 ∧
      DependencyHealthScanner.compare_prerelease p [] = -1) := by
  refine ⟨?_, ?_, ?_, ?_⟩
  · intro s t l r hs ht h1 h2 h3
    unfold DependencyHealthScanner.compare_semver
    rw [hs, ht]
    dsimp only
    rw [h1, h2, h3]
    simp
  · intro pfx p q n cs
    have h1 : (pfx ++ DependencyHealthScanner.PrePart.num n :: p).isEmpty = false := by
      cases pfx <;> rfl
    have h2 : (pfx ++ DependencyHealthScanner.PrePart.alpha cs :: q).isEmpty = false := by
      cases pfx <;> rfl
    unfold DependencyHealthScanner.compare_prerelease
    rw [h1, h2]
    simp only [Bool.false_and, Bool.false_eq_true, if_false]
    rw [compare_loop_append]
    simp [DependencyHealthScanner.compare_prerelease_loop,
      DependencyHealthScanner.part_cmp]
  · intro pfx rest hp hr
    obtain ⟨a, pfx2, rfl⟩ : ∃ a pfx2, pfx = a :: pfx2 := by
      cases pfx with
      | nil => exact absurd rfl hp
      | cons a pfx2 => exact ⟨a, pfx2, rfl⟩
    obtain ⟨b, rest2, rfl⟩ : ∃ b rest2, rest = b :: rest2 := by
      cases rest with
      | nil => exact absurd rfl hr
      | cons b rest2 => exact ⟨b, rest2, rfl⟩
    have hc := compare_loop_self_append (a :: pfx2) (b :: rest2) (by simp)
    constructor <;>
      · unfold DependencyHealthScanner.compare_prerelease
        simp only [List.cons_append, List.isEmpty_cons, Bool.false_and,
          Bool.false_eq_true, if_false]
        first
        | exact hc.1
        | exact hc.2
  · intro p hp
    obtain ⟨b, p2, rfl⟩ : ∃ b p2, p = b :: p2 := by
      cases p with
      | nil => exact absurd rfl hp
      | cons b p2 => exact ⟨b, p2, rfl⟩
    exact ⟨rfl, rfl⟩

/-- C8 (witness): the ordering theorem applied to concrete versions:
"1.2.3-1.x" (numeric first identifier) sorts before "1.2.3-rc.1"
(alphanumeric first identifier); a shared-prefix shorter prerelease
sorts before the longer; the empty prerelease sorts after a nonempty
one. -/
theorem semver_prerelease_ordering_witness :
    DependencyHealthScanner.compare_semver "1.2.3-1.x" "1.2.3-rc.1" = -1 ∧
    DependencyHealthScanner.compare_prerelease
      [DependencyHealthScanner.PrePart.alpha ['r', 'c']]
      [DependencyHealthScanner.PrePart.alpha ['r', 'c'],
       DependencyHealthScanner.PrePart.num 1] = -1 ∧
    DependencyHealthScanner.compare_prerelease []
      [DependencyHealthScanner.PrePart.num 0] = 1 := by
  refine ⟨?_, ?_, ?_⟩
  · rw [semver_prerelease_ordering.1 "1.2.3-1.x" "1.2.3-rc.1"
      ⟨1, 2, 3, [DependencyHealthScanner.PrePart.num 1,
        DependencyHealthScanner.PrePart.alpha ['x']]⟩
      ⟨1, 2, 3, [DependencyHealthScanner.PrePart.alpha ['r', 'c'],
        DependencyHealthScanner.PrePart.num 1]⟩
      (by decide) (by decide) rfl rfl rfl]
    exact semver_prerelease_ordering.2.1 []
      [DependencyHealthScanner.PrePart.alpha ['x']]
      [DependencyHealthScanner.PrePart.num 1] 1 ['r', 'c']
  · exact (semver_prerelease_ordering.2.2.1
      [DependencyHealthScanner.PrePart.alpha ['r', 'c']]
      [DependencyHealthScanner.PrePart.num 1] (by decide) (by decide)).1
  · exact (semver_prerelease_ordering.2.2.2
      [DependencyHealthScanner.PrePart.num 0] (by decide)).1

/-! ## Repository acquisition (repo_fetcher.py) -/

namespace RepoFetcher

/-- The abstract remote the git transport talks to: the set of existing
branches and the default branch its HEAD symref reports.  (The git
binary itself is outside the repository; its branch-dependent
success/failure is modelled, with a reliable transport.) -/
structure RemoteRepo where
  branches : List String
  defaultBranch : Option String
  deriving Repr, DecidableEq

/-- Outcome of a failed git subprocess: a missing-remote-branch error
(git's "Remote branch not found" / "couldn't find remote ref"
messages, which `_is_branch_missing_error` recognizes) or any other
failure. -/
inductive GitError where
  | branchMissing
  | failure
  deriving Repr, DecidableEq

/-- repo_fetcher.py 116-131 `_run_command` for
`git clone --depth 1 --branch b`: over the abstract remote, succeeds
exactly when the branch exists, and a missing branch raises the
branch-missing `RuntimeError`. -/
def run_clone (remote : RemoteRepo) (branch : String) : Except GitError Unit :=
  if branch ∈ remote.branches then Except.ok () else Except.error GitError.branchMissing

/-- repo_fetcher.py 163-165 `_is_branch_missing_error`. -/
def is_branch_missing_error : GitError → Bool
  | GitError.branchMissing => true
  | GitError.failure => false

/-- repo_fetcher.py 145-161 `_get_default_branch`: the branch of the
remote HEAD symref reported by `git ls-remote --symref`, if any. -/
def get_default_branch (remote : RemoteRepo) : Option String :=
  remote.defaultBranch

/-- repo_fetcher.py 19-67 `clone`, reduced to its branch-resolution
control flow (the returned value is the resolved branch; the temporary
directory handling carries no claim-relevant state): try the requested
branch; on a branch-missing error with a nonempty requested branch,
look up the default branch, and when it is nonempty and different,
retry once with it and report it as resolved; otherwise re-raise. -/
def clone (remote : RemoteRepo) (branch : String) : Except GitError String :=
  match run_clone remote branch with
  | Except.ok _ => Except.ok branch
  | Except.error e =>
    if branch != "" && is_branch_missing_error e then
      match get_default_branch remote with
      | some d =>
        if d != "" && d != branch then
          match run_clone remote d with
          | Except.ok _ => Except.ok d
          | Except.error e2 => Except.error e2
        else Except.error e
      | none => Except.error e
    else Except.error e

end RepoFetcher

/-- C7: if the requested (nonempty) branch does not exist on the remote
and the remote reports a (nonempty, existing) default branch, `clone`
returns normally with the default branch as the resolved branch, which
differs from the requested branch. -/
theorem clone_missing_branch_fallback
    (remote : RepoFetcher.RemoteRepo) (branch d : String)
    (hbranch : branch ≠ "")
    (hmiss : branch ∉ remote.branches)
    (hdef : RepoFetcher.get_default_branch remote = some d)
    (hdne : d ≠ "")
    (hdex : d ∈ remote.branches) :
    RepoFetcher.clone remote branch = Except.ok d ∧ d ≠ branch := by
  have hne : d ≠ branch := fun h => hmiss (h ▸ hdex)
  refine ⟨?_, hne⟩
  unfold RepoFetcher.clone RepoFetcher.run_clone
  rw [if_neg hmiss]
  dsimp only [RepoFetcher.is_branch_missing_error]
  rw [hdef]
  simp only [hbranch, hdne, hne, ne_eq, bne_iff_ne, not_false_eq_true,
    Bool.and_true, Bool.true_and, if_true]
  rw [if_pos hdex]
  simp [hdne, hne]

/-- Concrete remote for the C7 witness. -/
def c7Remote : RepoFetcher.RemoteRepo :=
  { branches := ["main", "develop"], defaultBranch := some "main" }

/-- C7 (witness): requesting the missing branch "release" on a remote
whose default branch is "main" resolves to "main". -/
theorem clone_missing_branch_fallback_witness :
    RepoFetcher.clone c7Remote "release" = Except.ok "main" ∧
    "main" ≠ "release" :=
  clone_missing_branch_fallback c7Remote "release" "main"
    (by decide) (by decide) rfl (by decide) (by decide)

/-! ## Dynamic analysis runner (dast_runner.py) -/

namespace DASTRunner

/-- The `classification` sub-object of a nuclei record, reduced to the
four keys `_parse_nuclei_finding` reads. -/
structure NucleiClassification where
  cve_id : Option AITriageEngine.PyVal := none
  cve : Option AITriageEngine.PyVal := none
  cwe_id : Option AITriageEngine.PyVal := none
  cwe : Option AITriageEngine.PyVal := none
  deriving Repr, DecidableEq

/-- The `info` sub-object of a nuclei record. -/
structure NucleiInfo where
  name : Option AITriageEngine.PyVal := none
  severity : Option AITriageEngine.PyVal := none
  description : Option AITriageEngine.PyVal := none
  remediation : Option AITriageEngine.PyVal := none
  classification : Option NucleiClassification := none
  deriving Repr, DecidableEq

/-- One decoded line of nuclei JSONL output, reduced to the keys
`_parse_nuclei_finding` reads (dash/underscore and camel-case variants
are distinct keys in the JSON). -/
structure NucleiRecord where
  template_id_dash : Option AITriageEngine.PyVal := none
  templateID : Option AITriageEngine.PyVal := none
  template : Option AITriageEngine.PyVal := none
  info : Option NucleiInfo := none
  matched_at_dash : Option AITriageEngine.PyVal := none
  matched_at_us : Option AITriageEngine.PyVal := none
  host : Option AITriageEngine.PyVal := none
  ip : Option AITriageEngine.PyVal := none
  curl_command : Option AITriageEngine.PyVal := none
  extracted_results : Option AITriageEngine.PyVal := none
  deriving Repr, DecidableEq

/-- Python `a or b` on possibly-missing JSON values. -/
def py_or_opt (a b : Option AITriageEngine.PyVal) : Option AITriageEngine.PyVal :=
  match a with
  | some v => if AITriageEngine.py_truthy v then some v else b
  | none => b

/-- dast_runner.py 138-145 `_to_list`. -/
def to_list (v : Option AITriageEngine.PyVal) : List String :=
  match v with
  | none => []
  | some (AITriageEngine.PyVal.list xs) =>
    xs.filterMap (fun it =>
      if AITriageEngine.scalar_truthy it then some (AITriageEngine.scalar_str it)
      else none)
  | some (AITriageEngine.PyVal.scalar (AITriageEngine.PyScalar.s v)) => [v]
  | some pv => [AITriageEngine.py_str pv]

/-- dast_runner.py 128-135 `_extract_endpoint`: the `scheme://netloc`
of the parsed URL when both are present, else "".  (The urlparse split
is modelled as the scheme://netloc decomposition the nuclei URLs use.) -/
def extract_endpoint (value : String) : String :=
  let cs := value.data
  let scheme := cs.takeWhile (fun c => c != ':')
  match cs.drop scheme.length with
  | ':' :: '/' :: '/' :: rest2 =>
    let netloc := rest2.takeWhile (fun c => c != '/' && c != '?' && c != '#')
    if !scheme.isEmpty && !netloc.isEmpty then
      String.mk scheme ++ "://" ++ String.mk netloc
    else ""
  | _ => ""

/-- dast_runner.py 90-125 `_parse_nuclei_finding`. -/
def parse_nuclei_finding (payload : NucleiRecord) (target_url : String) :
    Option DynamicFinding :=
  let template_id :=
    AITriageEngine.py_or_str [payload.template_id_dash, payload.templateID]
  let info := payload.info.getD {}
  let template_name := AITriageEngine.py_or_str [info.name, payload.template,
    some (AITriageEngine.PyVal.scalar (AITriageEngine.PyScalar.s template_id))]
  let severity := pyLower (AITriageEngine.py_or_str [info.severity,
    some (AITriageEngine.PyVal.scalar (AITriageEngine.PyScalar.s "info"))])
  let matched_at0 :=
    AITriageEngine.py_or_str [payload.matched_at_dash, payload.matched_at_us]
  let host := AITriageEngine.py_or_str [payload.host, payload.ip]
  let matched_at := if matched_at0 == "" then target_url else matched_at0
  let endpoint :=
    if host != "" then host
    else if extract_endpoint matched_at != "" then extract_endpoint matched_at
    else extract_endpoint target_url
  let curl_command := AITriageEngine.py_or_str [payload.curl_command]
  let evidence := to_list payload.extracted_results
  let description := AITriageEngine.py_or_str [info.description]
  let remediation := AITriageEngine.py_or_str [info.remediation]
  let classification := info.classification.getD {}
  let cve_ids := to_list (py_or_opt classification.cve_id classification.cve)
  let cwe_ids := to_list (py_or_opt classification.cwe_id classification.cwe)
  if template_id == "" && template_name == "" then none
  else some
    { template_id := if template_id != "" then template_id else template_name
      template_name := if template_name != "" then template_name else template_id
      severity := severity
      matched_at := matched_at
      endpoint := if endpoint != "" then endpoint else target_url
      curl_command := curl_command
      evidence := evidence
      description := description
      remediation := remediation
      cve_ids := cve_ids
      cwe_ids := cwe_ids }

/-- Outcome of the nuclei subprocess run off-loaded with
`asyncio.to_thread`: a `subprocess.TimeoutExpired`, or completion with
a return code and the decoded stdout lines (`none` is a line
`json.loads` rejects, which the loop counts and skips). -/
inductive SubprocessOutcome where
  | timeout
  | completed (returncode : ℤ) (lines : List (Option NucleiRecord))
  deriving Repr, DecidableEq

/-- dast_runner.py 25-87 `DASTRunner.scan`: an empty list on timeout,
an empty list on a non-zero exit, otherwise the findings parsed from
the decodable lines (records with neither template id nor name are
dropped). -/
def scan (target_url : String) : SubprocessOutcome → List DynamicFinding
  | SubprocessOutcome.timeout => []
  | SubprocessOutcome.completed rc lines =>
    if rc != 0 then []
    else lines.filterMap (fun l =>
      match l with
      | none => none
      | some payload => parse_nuclei_finding payload target_url)

/-- Aggregate outcome of a scan run, as the orchestrator records it. -/
structure ScanOutcome where
  status : String
  dast_findings : ℕ
  total_findings : ℕ
  deriving Repr, DecidableEq

/-- scan_pipeline.py 120-295 reduced to a DAST-only scan with a target
URL: the dynamic phase runs when the binary is available, correlation
runs with the empty static list, and the scan transitions to
"completed" with the final counters.  Inside this slice the only
fallible stage is the nuclei subprocess, whose timeout `scan` absorbs
into an empty result, so the `except` branch that would record
"failed" is never taken. -/
def run_dast_only_pipeline (available : Bool) (target_url : String)
    (outcome : SubprocessOutcome) : ScanOutcome :=
  let dast := if available then scan target_url outcome else []
  let corr := Correlation.correlate_findings [] dast
  { status := "completed"
    dast_findings := dast.length
    total_findings := corr.1.length + corr.2.length }

end DASTRunner

/-- C9: for every target URL, a timed-out dynamic scanner subprocess
makes `DASTRunner.scan` return the empty finding list instead of
raising, and the DAST-only pipeline slice still reaches the
"completed" status with zero DAST findings rather than "failed". -/
theorem dast_timeout_empty (target_url : String) (available : Bool) :
    DASTRunner.scan target_url DASTRunner.SubprocessOutcome.timeout = [] ∧
    (DASTRunner.run_dast_only_pipeline available target_url
        DASTRunner.SubprocessOutcome.timeout).status = "completed" ∧
    (DASTRunner.run_dast_only_pipeline true target_url
        DASTRunner.SubprocessOutcome.timeout).dast_findings = 0 :=
  ⟨rfl, rfl, rfl⟩

/-! ## Persistence of triaged findings (scan_pipeline.py 140-179) and
the aggregator's processing path (finding_aggregator.py 20-35) -/

namespace FindingAggregator

/-- finding_aggregator.py 32-35 `_filter_false_positives`. -/
def filter_false_positives (findings : List TriagedFinding) : List TriagedFinding :=
  findings.filter (fun f => !f.is_false_positive)

/-- finding_aggregator.py 20-30 `process` in the configuration the
pipeline reaches when no similarity index is available (`pinecone is
None`, as when `_get_pinecone` fails): `_deduplicate` returns its input
unchanged, every retained finding gets its recomputed priority score,
and the result is sorted by descending priority score (a stable sort,
like Python's). -/
def process_no_index (findings : List TriagedFinding) : List TriagedFinding :=
  let filtered := filter_false_positives findings
  let deduped := filtered
  let scored := deduped.map
    (fun f => { f with priority_score := some (calculate_priority f) })
  scored.insertionSort
    (fun a b => (a.priority_score.getD 0) ≥ (b.priority_score.getD 0))

end FindingAggregator

namespace ScanPipeline

/-- One persisted Finding row, with the columns scan_pipeline.py
140-179 fills for a static finding. -/
structure FindingRecord where
  rule_id : String
  rule_message : String
  semgrep_severity : String
  finding_type : String
  ai_severity : String
  is_false_positive : Bool
  ai_reasoning : String
  ai_confidence : ℚ
  exploitability : String
  file_path : String
  line_start : ℤ
  line_end : ℤ
  code_snippet : Option String
  context_snippet : Option String
  function_name : Option String
  class_name : Option String
  is_test_file : Bool
  is_generated : Bool
  imports : Option (List String)
  matched_at : Option String
  endpoint : Option String
  curl_command : Option String
  evidence : Option (List String)
  cve_ids : Option (List String)
  cwe_ids : Option (List String)
  confirmed_exploitable : Bool
  status : String
  priority_score : ℤ
  deriving Repr, DecidableEq

/-- scan_pipeline.py 142-179: the Finding row `db.add`ed for one
triaged static finding.  `priority_score` is recomputed with
`aggregator.calculate_priority` and overridden to 0 when the finding is
flagged false-positive. -/
def static_finding_record (item : TriagedFinding) : FindingRecord :=
  { rule_id := item.rule_id
    rule_message := item.rule_message
    semgrep_severity := item.semgrep_severity
    finding_type := "sast"
    ai_severity := item.ai_severity
    is_false_positive := item.is_false_positive
    ai_reasoning := item.ai_reasoning
    ai_confidence := item.ai_confidence
    exploitability := item.exploitability
    file_path := item.file_path
    line_start := item.line_start
    line_end := item.line_end
    code_snippet := some item.code_snippet
    context_snippet := some item.context_snippet
    function_name := item.function_name
    class_name := item.class_name
    is_test_file := item.is_test_file
    is_generated := item.is_generated
    imports := some item.imports
    matched_at := item.dast_matched_at
    endpoint := item.dast_endpoint
    curl_command := item.dast_curl_command
    evidence := item.dast_evidence
    cve_ids := item.dast_cve_ids
    cwe_ids := item.dast_cwe_ids
    confirmed_exploitable := item.confirmed_exploitable
    status := "new"
    priority_score :=
      if item.is_false_positive then 0
      else FindingAggregator.calculate_priority item }

/-- scan_pipeline.py 142-179: the persistence loop runs over the whole
correlated `triaged` list — the aggregator's filtered output is not the
persisted set — producing exactly one record per triaged finding. -/
def persist_static_findings (triaged : List TriagedFinding) : List FindingRecord :=
  triaged.map static_finding_record

end ScanPipeline

/-- C10: the pipeline persists one Finding record for every triaged
static finding, in order and including those flagged false-positive;
every false-positive record has priority_score exactly 0; and the
Aggregator's processed output is not the persisted set — it contains no
false-positive finding at all. -/
theorem pipeline_persists_all_triaged (triaged : List TriagedFinding) :
    (ScanPipeline.persist_static_findings triaged).length = triaged.length ∧
    (∀ i : ℕ, (ScanPipeline.persist_static_findings triaged)[i]? =
      (triaged[i]?).map ScanPipeline.static_finding_record) ∧
    (∀ f : TriagedFinding, f.is_false_positive = true →
      (ScanPipeline.static_finding_record f).priority_score = 0) ∧
    (∀ f ∈ FindingAggregator.process_no_index triaged,
      f.is_false_positive = false) := by
  refine ⟨List.length_map _ _, ?_, ?_, ?_⟩
  · intro i
    rw [ScanPipeline.persist_static_findings, List.getElem?_map]
  · intro f hf
    unfold ScanPipeline.static_finding_record
    simp [hf]
  · intro f hf
    unfold FindingAggregator.process_no_index at hf
    have hmem := (List.perm_insertionSort
      (fun a b : TriagedFinding =>
        (a.priority_score.getD 0) ≥ (b.priority_score.getD 0)) _).mem_iff.mp hf
    obtain ⟨g, hg, rfl⟩ := List.mem_map.mp hmem
    have := List.mem_filter.mp hg
    simpa using this.2

/-- C10 (witness): the theorem applied to the one-element list holding
the false-positive finding `sqlSast2`. -/
theorem pipeline_persists_all_triaged_witness :
    (ScanPipeline.persist_static_findings [sqlSast2])[0]? =
      some (ScanPipeline.static_finding_record sqlSast2) ∧
    (ScanPipeline.static_finding_record sqlSast2).priority_score = 0 := by
  refine ⟨?_, (pipeline_persists_all_triaged [sqlSast2]).2.2.1 sqlSast2 rfl⟩
  rw [(pipeline_persists_all_triaged [sqlSast2]).2.1 0]
  rfl
